import Mathlib

/-!
Verification model of the equation-rendering tool (`src/render.ts`).

The original logic of the tool is two DOM-mutation passes over SVG markup
(`addOutlineToMathJaxSvg`, `addMarginToSvg`), a directory enumerator
(`listTexFiles`) and a sequential batch orchestrator (`main`).  We embed these
shallowly:

* JavaScript numbers are modelled as `Option ℚ` (`none` encodes NaN).  The
  values arising in this code are produced by decimal parsing and the four
  rational operations, so rational arithmetic is exact for them; IEEE rounding
  of doubles is not modelled.  Division by zero is mapped to `none`; every
  division in the source is guarded by a positivity check, so this choice is
  never observable.
* `Number(...)`, `parseFloat(...)`, `String(...)`, `...split(/\s+/)`,
  `toLowerCase`, `trim` and `includes` are modelled character-exactly for the
  ASCII decimal strings this tool manipulates (exponent forms, hex literals
  and non-ASCII case folding are outside the model and outside the spec).
* The DOM is modelled structurally: an SVG document is its root attributes
  plus the list of its `path` descendants.  `DOMParser`/`XMLSerializer` are
  treated as identities on this structure.
-/

/-- A JavaScript number: a rational value, or NaN (`none`). -/
abbrev JSNum := Option ℚ

/-- JavaScript `+` on numbers: NaN propagates. -/
def jsAdd : JSNum → JSNum → JSNum
  | some a, some b => some (a + b)
  | _, _ => none

/-- JavaScript binary `-` on numbers: NaN propagates. -/
def jsSub : JSNum → JSNum → JSNum
  | some a, some b => some (a - b)
  | _, _ => none

/-- JavaScript `*` on numbers: NaN propagates. -/
def jsMul : JSNum → JSNum → JSNum
  | some a, some b => some (a * b)
  | _, _ => none

/-- JavaScript `/` on numbers: NaN propagates.  Division by zero is mapped to
`none`; all divisions in the source are guarded by strict positivity of the
divisor, so the branch is unreachable there. -/
def jsDiv : JSNum → JSNum → JSNum
  | some a, some b => if b = 0 then none else some (a / b)
  | _, _ => none

/-- JavaScript `x > 0` comparison: `false` on NaN. -/
def jsPos : JSNum → Bool
  | some a => decide (0 < a)
  | none => false

/-- Value of a digit string read as a natural number (`"140"` ↦ 140). -/
def digitsVal (cs : List Char) : Nat :=
  cs.foldl (fun n c => 10 * n + (c.toNat - 48)) 0

/-- Value of a fraction digit string (`"25"` ↦ 1/4, i.e. the value of
`0.25`): the digits read as an integer, divided by ten to the number of
digits. -/
def fracVal (cs : List Char) : ℚ :=
  ((digitsVal cs : Nat) : ℚ) / (10 : ℚ) ^ cs.length

/-- Parse an unsigned decimal numeral `digits [. digits]` spanning the whole
character list (the body of JavaScript `Number(...)` after sign and
whitespace handling). -/
def parseDecAll (cs : List Char) : Option ℚ :=
  let ds := cs.takeWhile Char.isDigit
  let rest := cs.dropWhile Char.isDigit
  match rest with
  | [] => if ds.isEmpty then none else some ((digitsVal ds : Nat) : ℚ)
  | '.' :: rest2 =>
      let fs := rest2.takeWhile Char.isDigit
      let rest3 := rest2.dropWhile Char.isDigit
      if rest3.isEmpty && (!ds.isEmpty || !fs.isEmpty) then
        some (((digitsVal ds : Nat) : ℚ) + fracVal fs)
      else none
  | _ => none

/-- Parse an unsigned decimal numeral `digits [. digits]` as the longest head
of the character list, ignoring the remainder (the body of JavaScript
`parseFloat(...)` after sign and whitespace handling). -/
def parseDecHead (cs : List Char) : Option ℚ :=
  let ds := cs.takeWhile Char.isDigit
  let rest := cs.dropWhile Char.isDigit
  match rest with
  | '.' :: rest2 =>
      let fs := rest2.takeWhile Char.isDigit
      if ds.isEmpty && fs.isEmpty then none
      else some (((digitsVal ds : Nat) : ℚ) + fracVal fs)
  | _ => if ds.isEmpty then none else some ((digitsVal ds : Nat) : ℚ)

/-- Strip whitespace from both ends of a character list. -/
def trimWsChars (cs : List Char) : List Char :=
  ((cs.dropWhile Char.isWhitespace).reverse.dropWhile Char.isWhitespace).reverse

/-- JavaScript `Number(s)` on decimal strings: trims whitespace, maps the
empty string to `0`, accepts an optional sign followed by `digits [. digits]`
or `. digits`, and yields NaN (`none`) otherwise. -/
def jsNumber (s : String) : JSNum :=
  let cs := trimWsChars s.toList
  if cs.isEmpty then some 0
  else
    match cs with
    | '-' :: cs2 => (parseDecAll cs2).map Neg.neg
    | '+' :: cs2 => parseDecAll cs2
    | _ => parseDecAll cs

/-- JavaScript `parseFloat(s)` on decimal strings: skips leading whitespace,
reads an optional sign and the longest `digits [. digits]` head, ignores any
trailing characters, and yields NaN (`none`) when no digits are found. -/
def jsParseFloat (s : String) : JSNum :=
  let cs := s.toList.dropWhile Char.isWhitespace
  match cs with
  | '-' :: cs2 => (parseDecHead cs2).map Neg.neg
  | '+' :: cs2 => parseDecHead cs2
  | _ => parseDecHead cs

/-- Decimal digits of the fraction `rem / den` (with `rem < den`), fuelled.
Every number reachable in this program has a finite decimal expansion, so the
fuel is never exhausted there. -/
def fracDigits : Nat → Nat → Nat → List Char
  | 0, _, _ => []
  | fuel + 1, rem, den =>
      if rem = 0 then []
      else Nat.digitChar (rem * 10 / den) :: fracDigits fuel (rem * 10 % den) den

/-- JavaScript `String(x)` on a number: `"NaN"` for NaN, otherwise sign,
integer part, and (only when nonzero) a fractional part after `"."`. -/
def jsToString : JSNum → String
  | none => "NaN"
  | some q =>
      let sgn := if q.num < 0 then "-" else ""
      let na := q.num.natAbs
      let ds := fracDigits 64 (na % q.den) q.den
      sgn ++ Nat.repr (na / q.den) ++ (if ds.isEmpty then "" else "." ++ String.mk ds)

/-- Worker for `splitWs`: `cur` holds the (reversed) characters of the token
being read; the fuel (at least the length of the remaining input) makes the
recursion structural. -/
def splitWsGo : Nat → List Char → List Char → List String
  | _, [], cur => [String.mk cur.reverse]
  | 0, _ :: _, cur => [String.mk cur.reverse]
  | fuel + 1, c :: cs, cur =>
      if c.isWhitespace then
        String.mk cur.reverse :: splitWsGo fuel (cs.dropWhile Char.isWhitespace) []
      else
        splitWsGo fuel cs (c :: cur)

/-- JavaScript `s.split(/\s+/)`: splits at each maximal whitespace run.  As in
JavaScript, leading or trailing whitespace contributes an empty token and the
empty string splits to `[""]`. -/
def splitWs (s : String) : List String :=
  splitWsGo s.toList.length s.toList []

/-- JavaScript `s.toLowerCase()` (ASCII range). -/
def jsToLower (s : String) : String :=
  String.map Char.toLower s

example : jsNumber "140" = some 140 := by with_unfolding_all rfl
example : jsNumber "-20" = some (-20) := by with_unfolding_all rfl
example : jsNumber "1.5" = some (3 / 2) := by with_unfolding_all rfl
example : jsNumber "" = some 0 := by with_unfolding_all rfl
example : jsNumber "a" = none := by with_unfolding_all rfl
example : jsNumber "1.2.3" = none := by with_unfolding_all rfl
example : jsParseFloat "10ex" = some 10 := by with_unfolding_all rfl
example : jsParseFloat "10pt" = some 10 := by with_unfolding_all rfl
example : jsParseFloat "ex" = none := by with_unfolding_all rfl
example : jsParseFloat "" = none := by with_unfolding_all rfl
example : jsToString (some 14) = "14" := by with_unfolding_all rfl
example : jsToString (some (-20)) = "-20" := by with_unfolding_all rfl
example : jsToString (some (3 / 2)) = "1.5" := by with_unfolding_all rfl
example : jsToString none = "NaN" := by with_unfolding_all rfl
example : splitWs "0 0 100 50" = ["0", "0", "100", "50"] := by decide
example : splitWs "a b c d" = ["a", "b", "c", "d"] := by decide
example : splitWs "0 0 100" = ["0", "0", "100"] := by decide

/-!  The structural DOM model: an SVG document is its root attributes plus the
list of its `path` descendants (`getElementsByTagName` order).  Attribute
values are `Option String`; `none` models an absent attribute
(`getAttribute` returning `null`). -/

/-- A `path` element of the SVG document: the attributes the outline pass
reads or writes, plus the remaining attributes (`d`, `transform`, ...) kept
uninterpreted. -/
structure PathElem where
  fill : Option String
  stroke : Option String
  strokeWidth : Option String
  paintOrder : Option String
  strokeLinejoin : Option String
  otherAttrs : List (String × String)
deriving DecidableEq, Repr

/-- An SVG document: the attributes of the root element that the margin pass reads or
writes (`viewBox`, `width`, `height`), the remaining root attributes kept
uninterpreted, and the `path` descendants in document order. -/
structure SvgDoc where
  viewBox : Option String
  width : Option String
  height : Option String
  otherAttrs : List (String × String)
  paths : List PathElem
deriving DecidableEq, Repr

/-- The `OutlineOpts` type of `render.ts`: a stroke color and a numeric
stroke width. -/
structure OutlineOpts where
  stroke : String
  strokeWidth : ℚ
deriving DecidableEq, Repr

/-- `BRIGHT_OUTLINE_STROKE_COLOR` in `render.ts`. -/
def BRIGHT_OUTLINE_STROKE_COLOR : String := "#ddd"

/-- `BRIGHT_OUTLINE_STROKE_WIDTH` in `render.ts`. -/
def BRIGHT_OUTLINE_STROKE_WIDTH : ℚ := 45

/-- The loop body of `addOutlineToMathJaxSvg`: a path whose `fill` attribute
is exactly `"none"` is skipped; any other path gets the configured stroke
color, the configured stroke width (stringified), `paint-order "stroke fill"`
and `stroke-linejoin "round"`. -/
def outlinePath (opts : OutlineOpts) (p : PathElem) : PathElem :=
  if p.fill = some "none" then p
  else
    { p with
      stroke := some opts.stroke
      strokeWidth := some (jsToString (some opts.strokeWidth))
      paintOrder := some "stroke fill"
      strokeLinejoin := some "round" }

/-- `addOutlineToMathJaxSvg` from `render.ts`: apply `outlinePath` to every
`path` element; nothing else in the document changes. -/
def addOutlineToMathJaxSvg (doc : SvgDoc) (opts : OutlineOpts) : SvgDoc :=
  { doc with paths := doc.paths.map (outlinePath opts) }

/-- The new `viewBox` string written by `addMarginToSvg`: the template
literal joining the four stringified numbers with single spaces. -/
def vbRender (a b c d : JSNum) : String :=
  jsToString a ++ " " ++ jsToString b ++ " " ++ jsToString c ++ " " ++ jsToString d

/-- The body of `addMarginToSvg` after the early returns: `x y w h` are the
four viewBox components already mapped through `Number`.  Writes the expanded
`viewBox`, then rewrites the declared `width`/`height` attributes exactly
under the guards of the source (attribute truthy, no `"%"`, `parseFloat` not NaN,
both old box dimensions strictly positive). -/
def marginCore (doc : SvgDoc) (margin : ℚ) (x y w h : JSNum) : SvgDoc :=
  let newX := jsSub x (some margin)
  let newY := jsSub y (some margin)
  let newWidth := jsAdd w (some (2 * margin))
  let newHeight := jsAdd h (some (2 * margin))
  let doc1 := { doc with viewBox := some (vbRender newX newY newWidth newHeight) }
  match doc.width with
  | none => doc1
  | some widthAttr =>
      if widthAttr = "" then doc1
      else if widthAttr.toList.contains '%' then doc1
      else
        let widthValue := jsParseFloat widthAttr
        if widthValue ≠ none ∧ jsPos w = true ∧ jsPos h = true then
          let aspect := jsDiv w h
          let newWidthValue := jsAdd widthValue (jsMul (jsMul (some 2) (some margin)) (jsDiv widthValue w))
          let newHeightValue := jsDiv newWidthValue aspect
          let doc2 := { doc1 with width := some (jsToString newWidthValue ++ "ex") }
          match doc.height with
          | none => doc2
          | some heightAttr =>
              if heightAttr = "" then doc2
              else if heightAttr.toList.contains '%' then doc2
              else { doc2 with height := some (jsToString newHeightValue ++ "ex") }
        else doc1

/-- `addMarginToSvg` from `render.ts`.  Early returns: non-positive margin;
missing `viewBox`; a `viewBox` that does not split into exactly four
whitespace-separated components.  (The `x === undefined` checks of the source are
unreachable once the length is four and are not modelled; the
`getElementsByTagName("svg")[0]` lookup cannot fail in this structural model,
where the document is its root element.) -/
def addMarginToSvg (doc : SvgDoc) (margin : ℚ) : SvgDoc :=
  if margin ≤ 0 then doc
  else
    match doc.viewBox with
    | none => doc
    | some vb =>
        match (splitWs vb).map jsNumber with
        | [x, y, w, h] => marginCore doc margin x y w h
        | _ => doc

example :
    addMarginToSvg
      { viewBox := some "0 0 100 50", width := some "10ex", height := some "5ex",
        otherAttrs := [], paths := [] } 20 =
      { viewBox := some "-20 -20 140 90", width := some "14ex", height := some "7ex",
        otherAttrs := [], paths := [] } := by with_unfolding_all rfl

example :
    addMarginToSvg
      { viewBox := some "a b c d", width := none, height := none,
        otherAttrs := [], paths := [] } 20 =
      { viewBox := some "NaN NaN NaN NaN", width := none, height := none,
        otherAttrs := [], paths := [] } := by with_unfolding_all rfl

/-!  The input enumerator and the batch orchestrator. -/

/-- A directory entry as returned by `readdir(dir, { withFileTypes: true })`:
a name and whether the entry is a regular file (`isFile()`). -/
structure DirEnt where
  name : String
  isFile : Bool
deriving DecidableEq, Repr

/-- `listTexFiles` from `render.ts`: keep the regular files whose lowercased
name ends in `".tex"`, take their names (original casing), and sort.
The default `Array.sort` of JavaScript compares strings lexicographically; for the
ASCII names at hand this is the `≤` of Lean on `String`. -/
def listTexFiles (items : List DirEnt) : List String :=
  List.insertionSort (fun a b => a ≤ b)
    ((items.filter fun d => d.isFile && (jsToLower d.name).endsWith ".tex").map DirEnt.name)

example :
    listTexFiles [⟨"b.tex", true⟩, ⟨"A.TEX", true⟩, ⟨"c.txt", true⟩] =
      ["A.TEX", "b.tex"] := by with_unfolding_all rfl

/-- JavaScript `s.trim()` (ASCII whitespace). -/
def jsTrim (s : String) : String :=
  String.mk (trimWsChars s.toList)

/-- `slugify` from `render.ts`: `filename.replace(/\.[^.]+$/, "")` — strip a
final extension consisting of a dot followed by one or more non-dot
characters; leave the name unchanged when no such suffix exists. -/
def slugify (filename : String) : String :=
  let rev := filename.toList.reverse
  let ext := rev.takeWhile fun c => c ≠ '.'
  match rev.dropWhile (fun c => c ≠ '.') with
  | '.' :: stem => if ext.isEmpty then filename else String.mk stem.reverse
  | _ => filename

example : slugify "euler.tex" = "euler" := by decide
example : slugify "a.b.c" = "a.b" := by decide
example : slugify "noext" = "noext" := by decide
example : slugify "a." = "a." := by decide

/-- One input file of the batch: its directory-entry name and its text
content as read from disk. -/
structure BatchFile where
  name : String
  content : String
deriving DecidableEq, Repr

/-- Observable per-file effects of the orchestrator loop in `main`: the
"Skipping empty file" warning, the written SVG artifact (with the final
document), and the written PNG artifact. -/
inductive RenderEvent where
  | warnSkip (fileName : String)
  | wroteSvg (base : String) (doc : SvgDoc)
  | wrotePng (base : String)
deriving DecidableEq, Repr

/-- `renderOne` from `render.ts`: the typesetting collaborator (`conv`, an
abstract parameter standing for the MathJax `html.convert` plus SVG extraction)
followed by the outline pass with the bright-outline style.  The
`wrapSvg` trim/newline step is serialization-level and identity on the
structural document. -/
def renderOne (conv : String → Bool → SvgDoc) (latex : String) (display : Bool) : SvgDoc :=
  addOutlineToMathJaxSvg (conv latex display)
    { stroke := BRIGHT_OUTLINE_STROKE_COLOR, strokeWidth := BRIGHT_OUTLINE_STROKE_WIDTH }

/-- One iteration of the `for` loop in `main`: skip (with a warning) when the
trimmed content is empty, otherwise typeset, outline, apply the margin pass
when `margin > 0`, and write the `.svg` and `.png` artifacts under the
slugified base name. -/
def processFile (conv : String → Bool → SvgDoc) (display : Bool) (margin : ℚ)
    (f : BatchFile) : List RenderEvent :=
  let latex := jsTrim f.content
  if latex = "" then [RenderEvent.warnSkip f.name]
  else
    let svg0 := renderOne conv latex display
    let svg := if 0 < margin then addMarginToSvg svg0 margin else svg0
    [RenderEvent.wroteSvg (slugify f.name) svg, RenderEvent.wrotePng (slugify f.name)]

/-- The whole `for` loop of `main`: files processed sequentially in order,
events concatenated. -/
def processBatch (conv : String → Bool → SvgDoc) (display : Bool) (margin : ℚ)
    (files : List BatchFile) : List RenderEvent :=
  (files.map (processFile conv display margin)).flatten

/-- Observable outcome of one run of `main`: whether the output directory was
created/ensured, the process exit code, the messages on the diagnostic
stream, and the per-file events. -/
structure MainOutcome where
  outDirEnsured : Bool
  exitCode : Nat
  errLog : List String
  events : List RenderEvent
deriving DecidableEq, Repr

/-- `main` from `render.ts`: ensure the output directory, enumerate the
`.tex` files, fail with exit code 1 and a diagnostic message when there are
none, and otherwise run the loop over the sorted files (`contentOf` stands
for `fs.readFile`). -/
def mainModel (entries : List DirEnt) (contentOf : String → String)
    (conv : String → Bool → SvgDoc) (display : Bool) (margin : ℚ) : MainOutcome :=
  let files := listTexFiles entries
  if files.length = 0 then
    { outDirEnsured := true, exitCode := 1,
      errLog := ["No .tex files found"], events := [] }
  else
    { outDirEnsured := true, exitCode := 0, errLog := [],
      events := processBatch conv display margin
        (files.map fun n => { name := n, content := contentOf n }) }

/-!  Theorems. -/

/-- The outline loop body applied twice is the outline loop body applied
once: the first application never changes `fill`, and the second re-sets the
same four attributes. -/
theorem outlinePath_involutive (opts : OutlineOpts) (p : PathElem) :
    outlinePath opts (outlinePath opts p) = outlinePath opts p := by
  unfold outlinePath
  by_cases h : p.fill = some "none"
  · simp [h]
  · simp [h]

/-- Claim C4: for every vector document and outline style, each path whose
`fill` is not `"none"` gains exactly the configured stroke color, the
configured stroke width, `paint-order "stroke fill"` and
`stroke-linejoin "round"`; each path whose `fill` is `"none"` is unchanged;
and no element is added or removed (the path lists correspond element by
element, and the rest of the document is untouched). -/
theorem outline_marks_filled_paths (doc : SvgDoc) (opts : OutlineOpts) :
    (addOutlineToMathJaxSvg doc opts).paths.length = doc.paths.length ∧
    (addOutlineToMathJaxSvg doc opts).viewBox = doc.viewBox ∧
    (addOutlineToMathJaxSvg doc opts).width = doc.width ∧
    (addOutlineToMathJaxSvg doc opts).height = doc.height ∧
    (addOutlineToMathJaxSvg doc opts).otherAttrs = doc.otherAttrs ∧
    List.Forall₂ (fun p q =>
        (p.fill = some "none" → q = p) ∧
        (¬ p.fill = some "none" →
          q.stroke = some opts.stroke ∧
          q.strokeWidth = some (jsToString (some opts.strokeWidth)) ∧
          q.paintOrder = some "stroke fill" ∧
          q.strokeLinejoin = some "round"))
      doc.paths (addOutlineToMathJaxSvg doc opts).paths := by
  refine ⟨by simp [addOutlineToMathJaxSvg], rfl, rfl, rfl, rfl, ?_⟩
  show List.Forall₂ _ doc.paths (doc.paths.map (outlinePath opts))
  rw [List.forall₂_map_right_iff]
  rw [List.forall₂_same]
  intro p _
  constructor
  · intro h
    simp [outlinePath, h]
  · intro h
    simp [outlinePath, h]

/-- Witness for C4 at a concrete two-path document: one filled path gains the
stroke attributes, the `fill="none"` path is unchanged. -/
theorem outline_marks_filled_paths_witness :
    (addOutlineToMathJaxSvg
        { viewBox := some "0 0 100 50", width := none, height := none, otherAttrs := [],
          paths := [{ fill := some "none", stroke := none, strokeWidth := none,
                      paintOrder := none, strokeLinejoin := none, otherAttrs := [] },
                    { fill := some "currentColor", stroke := none, strokeWidth := none,
                      paintOrder := none, strokeLinejoin := none, otherAttrs := [] }] }
        { stroke := "#ddd", strokeWidth := 45 }).paths.length = 2 ∧
    List.Forall₂ (fun p q =>
        (p.fill = some "none" → q = p) ∧
        (¬ p.fill = some "none" →
          q.stroke = some "#ddd" ∧
          q.strokeWidth = some (jsToString (some 45)) ∧
          q.paintOrder = some "stroke fill" ∧
          q.strokeLinejoin = some "round"))
      ({ viewBox := some "0 0 100 50", width := none, height := none, otherAttrs := [],
         paths := [{ fill := some "none", stroke := none, strokeWidth := none,
                     paintOrder := none, strokeLinejoin := none, otherAttrs := [] },
                   { fill := some "currentColor", stroke := none, strokeWidth := none,
                     paintOrder := none, strokeLinejoin := none, otherAttrs := [] }] } : SvgDoc).paths
      (addOutlineToMathJaxSvg
        { viewBox := some "0 0 100 50", width := none, height := none, otherAttrs := [],
          paths := [{ fill := some "none", stroke := none, strokeWidth := none,
                      paintOrder := none, strokeLinejoin := none, otherAttrs := [] },
                    { fill := some "currentColor", stroke := none, strokeWidth := none,
                      paintOrder := none, strokeLinejoin := none, otherAttrs := [] }] }
        { stroke := "#ddd", strokeWidth := 45 }).paths := by
  have h := outline_marks_filled_paths
    { viewBox := some "0 0 100 50", width := none, height := none, otherAttrs := [],
      paths := [{ fill := some "none", stroke := none, strokeWidth := none,
                  paintOrder := none, strokeLinejoin := none, otherAttrs := [] },
                { fill := some "currentColor", stroke := none, strokeWidth := none,
                  paintOrder := none, strokeLinejoin := none, otherAttrs := [] }] }
    { stroke := "#ddd", strokeWidth := 45 }
  exact ⟨h.1, h.2.2.2.2.2⟩

/-- Claim C9: applying the outline post-processor twice with the same style
produces the same document as applying it once. -/
theorem outline_idempotent (doc : SvgDoc) (opts : OutlineOpts) :
    addOutlineToMathJaxSvg (addOutlineToMathJaxSvg doc opts) opts =
      addOutlineToMathJaxSvg doc opts := by
  unfold addOutlineToMathJaxSvg
  simp only [List.map_map]
  congr 1
  exact List.map_congr_left fun p _ => outlinePath_involutive opts p

/-- Witness for C9 at a concrete one-path document. -/
theorem outline_idempotent_witness :
    addOutlineToMathJaxSvg
        (addOutlineToMathJaxSvg
          { viewBox := none, width := none, height := none, otherAttrs := [],
            paths := [{ fill := none, stroke := none, strokeWidth := none,
                        paintOrder := none, strokeLinejoin := none, otherAttrs := [] }] }
          { stroke := "#ddd", strokeWidth := 45 })
        { stroke := "#ddd", strokeWidth := 45 } =
      addOutlineToMathJaxSvg
        { viewBox := none, width := none, height := none, otherAttrs := [],
          paths := [{ fill := none, stroke := none, strokeWidth := none,
                      paintOrder := none, strokeLinejoin := none, otherAttrs := [] }] }
        { stroke := "#ddd", strokeWidth := 45 } :=
  outline_idempotent _ _

/-- Claim C5: the input enumerator returns exactly the names of the regular
files whose lowercased name ends in `".tex"` (original casing preserved,
i.e. a permutation of those names) in lexicographically ascending sorted
order, and on the listing `["b.tex", "A.TEX", "c.txt"]` it returns
`["A.TEX", "b.tex"]`. -/
theorem listTexFiles_sorted_eligible (items : List DirEnt) :
    (listTexFiles items).Sorted (fun a b => a ≤ b) ∧
    (listTexFiles items).Perm
      ((items.filter fun d => d.isFile && (jsToLower d.name).endsWith ".tex").map DirEnt.name) ∧
    listTexFiles [{ name := "b.tex", isFile := true }, { name := "A.TEX", isFile := true },
        { name := "c.txt", isFile := true }] = ["A.TEX", "b.tex"] := by
  refine ⟨List.sorted_insertionSort _ _, List.perm_insertionSort _ _, ?_⟩
  with_unfolding_all rfl

/-- Claim C6: a source file whose content is empty after trimming produces
exactly the skip warning — no vector and no raster write event — and the
batch around it is processed exactly as it would be on its own: the events of
the whole batch are the events of the files before it, then the warning,
then the events of the files after it. -/
theorem batch_skips_empty_file (conv : String → Bool → SvgDoc) (display : Bool)
    (margin : ℚ) (xs ys : List BatchFile) (f : BatchFile)
    (h : jsTrim f.content = "") :
    processFile conv display margin f = [RenderEvent.warnSkip f.name] ∧
    (∀ base d, RenderEvent.wroteSvg base d ∉ processFile conv display margin f) ∧
    (∀ base, RenderEvent.wrotePng base ∉ processFile conv display margin f) ∧
    processBatch conv display margin (xs ++ f :: ys) =
      processBatch conv display margin xs ++
        RenderEvent.warnSkip f.name :: processBatch conv display margin ys := by
  have hf : processFile conv display margin f = [RenderEvent.warnSkip f.name] := by
    simp [processFile, h]
  refine ⟨hf, ?_, ?_, ?_⟩
  · intro base d
    simp [hf]
  · intro base
    simp [hf]
  · simp [processBatch, hf]

/-- An SVG document with no attributes and no paths, used as a concrete
typesetting result in witnesses. -/
def emptySvgDoc : SvgDoc :=
  { viewBox := none, width := none, height := none, otherAttrs := [], paths := [] }

/-- A constant typesetting collaborator for witnesses. -/
def constConv : String → Bool → SvgDoc := fun _ _ => emptySvgDoc

/-- Witness for C6: a batch of three files whose middle file is whitespace
only; the other two files still produce their write events. -/
theorem batch_skips_empty_file_witness :
    jsTrim "  " = "" ∧
    processBatch constConv true 0
        [{ name := "a.tex", content := "x" }, { name := "b.tex", content := "  " },
          { name := "c.tex", content := "y" }] =
      processBatch constConv true 0 [{ name := "a.tex", content := "x" }] ++
        RenderEvent.warnSkip "b.tex" ::
          processBatch constConv true 0 [{ name := "c.tex", content := "y" }] := by
  constructor
  · with_unfolding_all rfl
  · exact (batch_skips_empty_file constConv true 0 [{ name := "a.tex", content := "x" }]
      [{ name := "c.tex", content := "y" }] { name := "b.tex", content := "  " }
      (by with_unfolding_all rfl)).2.2.2

/-- Claim C7: when the enumerator finds no eligible files, the run reports an
error on the diagnostic stream, sets a non-zero exit code, produces no
per-file events (so no output files), and has still ensured the output
directory exists. -/
theorem main_fails_on_empty_listing (entries : List DirEnt) (contentOf : String → String)
    (conv : String → Bool → SvgDoc) (display : Bool) (margin : ℚ)
    (h : listTexFiles entries = []) :
    (mainModel entries contentOf conv display margin).exitCode ≠ 0 ∧
    (mainModel entries contentOf conv display margin).errLog ≠ [] ∧
    (mainModel entries contentOf conv display margin).events = [] ∧
    (mainModel entries contentOf conv display margin).outDirEnsured = true := by
  simp [mainModel, h]

/-- Witness for C7: a directory with only a `.txt` entry and a subdirectory
named `d.tex` (not a regular file) yields no eligible files. -/
theorem main_fails_on_empty_listing_witness :
    listTexFiles [{ name := "c.txt", isFile := true }, { name := "d.tex", isFile := false }] = [] ∧
    (mainModel [{ name := "c.txt", isFile := true }, { name := "d.tex", isFile := false }]
        (fun _ => "") constConv true 20).exitCode ≠ 0 := by
  constructor
  · with_unfolding_all rfl
  · exact (main_fails_on_empty_listing _ _ constConv true 20 (by with_unfolding_all rfl)).1

/-- In every branch of `marginCore`, the written `viewBox` is the expanded
bounding box. -/
theorem marginCore_viewBox (doc : SvgDoc) (m : ℚ) (x y w h : JSNum) :
    (marginCore doc m x y w h).viewBox =
      some (vbRender (jsSub x (some m)) (jsSub y (some m))
        (jsAdd w (some (2 * m))) (jsAdd h (some (2 * m)))) := by
  unfold marginCore
  rcases hW : doc.width with _ | wa
  · rfl
  · rcases hH : doc.height with _ | ha <;> simp only <;> split_ifs <;> rfl

/-- `marginCore` never touches the path elements. -/
theorem marginCore_paths (doc : SvgDoc) (m : ℚ) (x y w h : JSNum) :
    (marginCore doc m x y w h).paths = doc.paths := by
  unfold marginCore
  rcases hW : doc.width with _ | wa
  · rfl
  · rcases hH : doc.height with _ | ha <;> simp only <;> split_ifs <;> rfl

/-- `marginCore` never touches the remaining root attributes. -/
theorem marginCore_otherAttrs (doc : SvgDoc) (m : ℚ) (x y w h : JSNum) :
    (marginCore doc m x y w h).otherAttrs = doc.otherAttrs := by
  unfold marginCore
  rcases hW : doc.width with _ | wa
  · rfl
  · rcases hH : doc.height with _ | ha <;> simp only <;> split_ifs <;> rfl

/-- When any guard of the source for the size-attribute rewrite fails —
no `width` attribute, an empty or percentage or unparseable value, or a
non-positive (or NaN) old bounding-box dimension — `marginCore` leaves both
declared size attributes exactly as they were. -/
theorem marginCore_size_untouched (doc : SvgDoc) (m : ℚ) (x y w h : JSNum)
    (hc : ∀ wa, doc.width = some wa →
      wa = "" ∨ wa.toList.contains '%' = true ∨ jsParseFloat wa = none ∨
        jsPos w = false ∨ jsPos h = false) :
    (marginCore doc m x y w h).width = doc.width ∧
    (marginCore doc m x y w h).height = doc.height := by
  unfold marginCore
  rcases hW : doc.width with _ | wa
  · exact ⟨rfl, rfl⟩
  · have hd := hc wa hW
    rcases hH : doc.height with _ | ha <;> simp only <;> split_ifs with h1 h2 h3 <;>
      first
        | exact ⟨rfl, rfl⟩
        | · exfalso
            rcases hd with hd | hd | hd | hd | hd
            · exact h1 hd
            · exact h2 hd
            · exact h3.1 hd
            · rw [hd] at h3; exact absurd h3.2.1 (by simp)
            · rw [hd] at h3; exact absurd h3.2.2 (by simp)

/-- The declared `height` attribute is rewritten only when it is present,
non-empty and percentage-free; otherwise `marginCore` leaves it unchanged. -/
theorem marginCore_height_untouched (doc : SvgDoc) (m : ℚ) (x y w h : JSNum)
    (hc : ∀ ha, doc.height = some ha → ha = "" ∨ ha.toList.contains '%' = true) :
    (marginCore doc m x y w h).height = doc.height := by
  unfold marginCore
  rcases hW : doc.width with _ | wa
  · rfl
  · rcases hH : doc.height with _ | ha
    · simp only
      split_ifs <;> rfl
    · have hd := hc ha hH
      simp only
      split_ifs with h1 h2 h3 h4 h5 <;>
        first
          | rfl
          | · exfalso
              rcases hd with hd | hd
              · exact h4 hd
              · exact h5 hd

/-- When all guards of the source hold — a non-empty, percentage-free,
parseable `width` attribute and strictly positive old bounding-box
dimensions — `marginCore` writes the scaled declared width, and the declared
height (when present, non-empty and percentage-free) derived from the old
aspect ratio. -/
theorem marginCore_size_set (doc : SvgDoc) (m : ℚ) (x y : JSNum) (wq hq Wv : ℚ)
    (wa : String) (hW : doc.width = some wa) (hWp : wa.toList.contains '%' = false)
    (hWv : jsParseFloat wa = some Wv) (hwq : 0 < wq) (hhq : 0 < hq) :
    (marginCore doc m x y (some wq) (some hq)).width =
      some (jsToString (some (Wv + 2 * m * (Wv / wq))) ++ "ex") ∧
    ∀ ha, doc.height = some ha → ha ≠ "" → ha.toList.contains '%' = false →
      (marginCore doc m x y (some wq) (some hq)).height =
        some (jsToString (some ((Wv + 2 * m * (Wv / wq)) * hq / wq)) ++ "ex") := by
  have hwa : wa ≠ "" := by
    intro he
    have h0 : jsParseFloat "" = none := by with_unfolding_all rfl
    rw [he, h0] at hWv
    exact Option.noConfusion hWv
  have hwq0 : wq ≠ 0 := ne_of_gt hwq
  have hhq0 : hq ≠ 0 := ne_of_gt hhq
  have hwv : jsAdd (jsParseFloat wa)
      (jsMul (jsMul (some 2) (some m)) (jsDiv (jsParseFloat wa) (some wq))) =
      some (Wv + 2 * m * (Wv / wq)) := by
    rw [hWv]
    simp [jsAdd, jsMul, jsDiv, hwq0, mul_assoc]
  have hratio : jsDiv (some wq) (some hq) = some (wq / hq) := by
    simp [jsDiv, hhq0]
  have hhv : jsDiv (some (Wv + 2 * m * (Wv / wq))) (some (wq / hq)) =
      some ((Wv + 2 * m * (Wv / wq)) * hq / wq) := by
    have hne : wq / hq ≠ 0 := div_ne_zero hwq0 hhq0
    simp only [jsDiv, if_neg hne]
    rw [div_div_eq_mul_div]
  constructor
  · unfold marginCore
    rw [hW]
    simp only [if_neg hwa, hWp, Bool.false_eq_true, if_false]
    rw [if_pos]
    · rw [hwv, hratio]
      rcases hH : doc.height with _ | ha
      · rfl
      · dsimp only
        split_ifs <;> rfl
    · refine ⟨by rw [hWv]; exact Option.some_ne_none Wv, ?_, ?_⟩
      · simp [jsPos, hwq]
      · simp [jsPos, hhq]
  · intro ha hH hha hhap
    unfold marginCore
    rw [hW]
    simp only [if_neg hwa, hWp, Bool.false_eq_true, if_false]
    rw [if_pos]
    · rw [hwv, hratio, hhv, hH]
      simp only [if_neg hha, hhap, Bool.false_eq_true, if_false]
    · refine ⟨by rw [hWv]; exact Option.some_ne_none Wv, ?_, ?_⟩
      · simp [jsPos, hwq]
      · simp [jsPos, hhq]

/-- Whenever the declared `width` differs after `marginCore`, the new value
is a stringified number suffixed with the literal `"ex"`; likewise for the
declared `height`. -/
theorem marginCore_size_shape (doc : SvgDoc) (m : ℚ) (x y w h : JSNum) :
    ((marginCore doc m x y w h).width = doc.width ∨
      ∃ v : JSNum, (marginCore doc m x y w h).width = some (jsToString v ++ "ex")) ∧
    ((marginCore doc m x y w h).height = doc.height ∨
      ∃ v : JSNum, (marginCore doc m x y w h).height = some (jsToString v ++ "ex")) := by
  unfold marginCore
  rcases hW : doc.width with _ | wa
  · exact ⟨Or.inl rfl, Or.inl rfl⟩
  · rcases hH : doc.height with _ | ha <;> simp only <;> split_ifs <;>
      first
        | exact ⟨Or.inl rfl, Or.inl rfl⟩
        | exact ⟨Or.inr ⟨_, rfl⟩, Or.inl rfl⟩
        | exact ⟨Or.inr ⟨_, rfl⟩, Or.inr ⟨_, rfl⟩⟩

/-- `addMarginToSvg` with a non-positive margin returns the document
unchanged. -/
theorem addMargin_nonpos (doc : SvgDoc) (m : ℚ) (hm : m ≤ 0) :
    addMarginToSvg doc m = doc := by
  simp [addMarginToSvg, hm]

/-- `addMarginToSvg` with no `viewBox` attribute returns the document
unchanged. -/
theorem addMargin_noViewBox (doc : SvgDoc) (m : ℚ) (h : doc.viewBox = none) :
    addMarginToSvg doc m = doc := by
  unfold addMarginToSvg
  rw [h]
  split_ifs <;> rfl

/-- `addMarginToSvg` whose `viewBox` does not split into exactly four
whitespace-separated components returns the document unchanged. -/
theorem addMargin_badSplit (doc : SvgDoc) (m : ℚ) (vb : String)
    (h : doc.viewBox = some vb) (hn : (splitWs vb).length ≠ 4) :
    addMarginToSvg doc m = doc := by
  unfold addMarginToSvg
  rw [h]
  split_ifs
  · rfl
  · rcases hs : splitWs vb with _ | ⟨a, _ | ⟨b, _ | ⟨c, _ | ⟨d, _ | ⟨e, l⟩⟩⟩⟩⟩ <;>
      rw [hs] at hn <;> simp_all

/-- A document with `viewBox "0 0 100 50"` and no size attributes. -/
def svgPlain : SvgDoc :=
  { viewBox := some "0 0 100 50", width := none, height := none,
    otherAttrs := [], paths := [] }

/-- A document with `viewBox "0 0 100 50"`, `width "10ex"`, `height "5ex"`. -/
def svgSized : SvgDoc :=
  { viewBox := some "0 0 100 50", width := some "10ex", height := some "5ex",
    otherAttrs := [], paths := [] }

/-- A document with `viewBox "0 0 100 50"` and `width "10pt"`. -/
def svgPt : SvgDoc :=
  { viewBox := some "0 0 100 50", width := some "10pt", height := none,
    otherAttrs := [], paths := [] }

/-- A document with `viewBox "0 0 100 50"`, percentage `width "50%"` and
`height "5ex"`. -/
def svgPct : SvgDoc :=
  { viewBox := some "0 0 100 50", width := some "50%", height := some "5ex",
    otherAttrs := [], paths := [] }

/-- A document whose `viewBox` has three components. -/
def svgThree : SvgDoc :=
  { viewBox := some "0 0 100", width := none, height := none,
    otherAttrs := [], paths := [] }

/-- A document whose `viewBox` has four non-numeric components. -/
def svgAlpha : SvgDoc :=
  { viewBox := some "a b c d", width := none, height := none,
    otherAttrs := [], paths := [] }

/-- With a positive margin and a `viewBox` splitting into exactly four
tokens, `addMarginToSvg` is `marginCore` on the `Number`-parsed tokens. -/
theorem addMargin_unfold (doc : SvgDoc) (m : ℚ) (vb a b c d : String)
    (hm : 0 < m) (h : doc.viewBox = some vb) (hs : splitWs vb = [a, b, c, d]) :
    addMarginToSvg doc m =
      marginCore doc m (jsNumber a) (jsNumber b) (jsNumber c) (jsNumber d) := by
  unfold addMarginToSvg
  rw [if_neg (not_le.mpr hm), h]
  dsimp only
  rw [hs]
  rfl

/-- Claim C1: with a positive margin and a `viewBox` whose four components
parse as the numbers `x y w h`, the resulting `viewBox` is the serialization
of `(x - m, y - m, w + 2m, h + 2m)`. -/
theorem margin_expands_viewBox (doc : SvgDoc) (vb t1 t2 t3 t4 : String)
    (x y w h m : ℚ)
    (hvb : doc.viewBox = some vb) (hs : splitWs vb = [t1, t2, t3, t4])
    (h1 : jsNumber t1 = some x) (h2 : jsNumber t2 = some y)
    (h3 : jsNumber t3 = some w) (h4 : jsNumber t4 = some h) (hm : 0 < m) :
    (addMarginToSvg doc m).viewBox =
      some (jsToString (some (x - m)) ++ " " ++ jsToString (some (y - m)) ++ " " ++
        jsToString (some (w + 2 * m)) ++ " " ++ jsToString (some (h + 2 * m))) := by
  rw [addMargin_unfold doc m vb t1 t2 t3 t4 hm hvb hs, marginCore_viewBox,
    h1, h2, h3, h4]
  rfl

/-- Witness for C1: `viewBox "0 0 100 50"` with margin `20` becomes
`viewBox "-20 -20 140 90"`. -/
theorem margin_expands_viewBox_witness :
    (addMarginToSvg svgPlain 20).viewBox = some "-20 -20 140 90" := by
  have h := margin_expands_viewBox svgPlain
    "0 0 100 50" "0" "0" "100" "50" 0 0 100 50 20
    rfl (by decide) (by with_unfolding_all rfl) (by with_unfolding_all rfl)
    (by with_unfolding_all rfl) (by with_unfolding_all rfl) (by norm_num)
  rw [h]
  with_unfolding_all rfl

/-- Amended claim C2: the margin post-processor is the identity when the
margin is non-positive, when the `viewBox` attribute is missing, and when
the `viewBox` does not split into exactly four whitespace-separated
components.  (Four components that fail to parse as numbers do NOT trigger
the no-op: see `margin_nonnumeric_viewBox_corrupts`.) -/
theorem margin_noop_cases (doc : SvgDoc) (m : ℚ)
    (hc : m ≤ 0 ∨ doc.viewBox = none ∨
      ∃ vb, doc.viewBox = some vb ∧ (splitWs vb).length ≠ 4) :
    addMarginToSvg doc m = doc := by
  rcases hc with hc | hc | ⟨vb, hvb, hn⟩
  · exact addMargin_nonpos doc m hc
  · exact addMargin_noViewBox doc m hc
  · exact addMargin_badSplit doc m vb hvb hn

/-- Witness for the amended C2: margin `0` and a three-component `viewBox`
are both no-ops. -/
theorem margin_noop_cases_witness :
    addMarginToSvg svgSized 0 = svgSized ∧
    addMarginToSvg svgThree 20 = svgThree := by
  constructor
  · exact margin_noop_cases svgSized 0 (Or.inl le_rfl)
  · exact margin_noop_cases svgThree 20 (Or.inr (Or.inr ⟨"0 0 100", rfl, by decide⟩))

/-- Counterexample to claim C2 as stated: a `viewBox` of `"a b c d"` has
exactly four components, none of which is numeric, yet the post-processor
does not return the input unchanged — it rewrites the `viewBox` to
`"NaN NaN NaN NaN"`. -/
theorem margin_nonnumeric_viewBox_corrupts :
    (jsNumber "a" = none ∧ jsNumber "b" = none ∧
      jsNumber "c" = none ∧ jsNumber "d" = none) ∧
    (addMarginToSvg svgAlpha 20).viewBox = some "NaN NaN NaN NaN" ∧
    addMarginToSvg svgAlpha 20 ≠ svgAlpha := by
  have hres : (addMarginToSvg svgAlpha 20).viewBox = some "NaN NaN NaN NaN" := by
    with_unfolding_all rfl
  refine ⟨⟨by with_unfolding_all rfl, by with_unfolding_all rfl,
    by with_unfolding_all rfl, by with_unfolding_all rfl⟩, hres, ?_⟩
  intro heq
  rw [heq] at hres
  exact absurd hres (by decide)

/-- Claim C3: with a positive margin, a `viewBox` whose width and height
parse to positive numbers `w` and `h`, and a parseable non-percentage
declared width of numeric value `Wv`, the new declared width is
`Wv + 2·m·(Wv/w)` with suffix `"ex"`, and a present non-percentage declared
height is rewritten to the value derived from the original aspect ratio,
`(new width)·h/w`, with suffix `"ex"`. -/
theorem margin_scales_declared_size (doc : SvgDoc) (vb t1 t2 t3 t4 wa : String)
    (w h m Wv : ℚ)
    (hvb : doc.viewBox = some vb) (hs : splitWs vb = [t1, t2, t3, t4])
    (h3 : jsNumber t3 = some w) (h4 : jsNumber t4 = some h)
    (hw : 0 < w) (hh : 0 < h) (hm : 0 < m)
    (hW : doc.width = some wa) (hWp : wa.toList.contains '%' = false)
    (hWv : jsParseFloat wa = some Wv) :
    (addMarginToSvg doc m).width =
      some (jsToString (some (Wv + 2 * m * (Wv / w))) ++ "ex") ∧
    ∀ ha, doc.height = some ha → ha ≠ "" → ha.toList.contains '%' = false →
      (addMarginToSvg doc m).height =
        some (jsToString (some ((Wv + 2 * m * (Wv / w)) * h / w)) ++ "ex") := by
  rw [addMargin_unfold doc m vb t1 t2 t3 t4 hm hvb hs, h3, h4]
  exact marginCore_size_set doc m (jsNumber t1) (jsNumber t2) w h Wv wa hW hWp hWv hw hh

/-- Witness for C3: `viewBox "0 0 100 50"`, `width "10ex"`, `height "5ex"`,
margin `20` give `width "14ex"` and `height "7ex"`. -/
theorem margin_scales_declared_size_witness :
    (addMarginToSvg svgSized 20).width = some "14ex" ∧
    (addMarginToSvg svgSized 20).height = some "7ex" := by
  have h := margin_scales_declared_size svgSized "0 0 100 50" "0" "0" "100" "50" "10ex"
    100 50 20 10 rfl (by decide) (by with_unfolding_all rfl) (by with_unfolding_all rfl)
    (by norm_num) (by norm_num) (by norm_num) rfl (by decide) (by with_unfolding_all rfl)
  constructor
  · exact h.1.trans (by with_unfolding_all rfl)
  · exact (h.2 "5ex" rfl (by decide) (by decide)).trans (by with_unfolding_all rfl)

/-- Claim C8: with a positive margin and a four-token `viewBox`, if the
declared width is absent, percentage, or unparseable, or an old bounding-box
dimension fails the positivity check, then both declared size attributes are
left untouched and only the `viewBox` is rewritten (paths and other
attributes also untouched); and, unconditionally, the declared height is
rewritten only when it is present and percentage-free. -/
theorem margin_guards_leave_size (doc : SvgDoc) (vb t1 t2 t3 t4 : String) (m : ℚ)
    (hm : 0 < m) (hvb : doc.viewBox = some vb) (hs : splitWs vb = [t1, t2, t3, t4]) :
    ((doc.width = none ∨
        (∃ wa, doc.width = some wa ∧ (wa.toList.contains '%' = true ∨ jsParseFloat wa = none)) ∨
        jsPos (jsNumber t3) = false ∨ jsPos (jsNumber t4) = false) →
      (addMarginToSvg doc m).width = doc.width ∧
      (addMarginToSvg doc m).height = doc.height ∧
      (addMarginToSvg doc m).viewBox =
        some (vbRender (jsSub (jsNumber t1) (some m)) (jsSub (jsNumber t2) (some m))
          (jsAdd (jsNumber t3) (some (2 * m))) (jsAdd (jsNumber t4) (some (2 * m)))) ∧
      (addMarginToSvg doc m).paths = doc.paths ∧
      (addMarginToSvg doc m).otherAttrs = doc.otherAttrs) ∧
    ((doc.height = none ∨ ∃ ha, doc.height = some ha ∧ ha.toList.contains '%' = true) →
      (addMarginToSvg doc m).height = doc.height) := by
  rw [addMargin_unfold doc m vb t1 t2 t3 t4 hm hvb hs]
  constructor
  · intro hc
    have hu := marginCore_size_untouched doc m (jsNumber t1) (jsNumber t2)
      (jsNumber t3) (jsNumber t4) ?_
    · exact ⟨hu.1, hu.2, marginCore_viewBox doc m _ _ _ _,
        marginCore_paths doc m _ _ _ _, marginCore_otherAttrs doc m _ _ _ _⟩
    · intro wa hwa
      rcases hc with hc | ⟨wa2, hwa2, hd⟩ | hc | hc
      · rw [hwa] at hc
        exact Option.noConfusion hc
      · rw [hwa] at hwa2
        cases Option.some.inj hwa2
        rcases hd with hd | hd
        · exact Or.inr (Or.inl hd)
        · exact Or.inr (Or.inr (Or.inl hd))
      · exact Or.inr (Or.inr (Or.inr (Or.inl hc)))
      · exact Or.inr (Or.inr (Or.inr (Or.inr hc)))
  · intro hc
    apply marginCore_height_untouched
    intro ha hha
    rcases hc with hc | ⟨ha2, hha2, hd⟩
    · rw [hha] at hc
      exact Option.noConfusion hc
    · rw [hha] at hha2
      cases Option.some.inj hha2
      exact Or.inr hd

/-- Witness for C8: a percentage width `"50%"` (with height `"5ex"`) is left
untouched along with the height, while the `viewBox` is still expanded. -/
theorem margin_guards_leave_size_witness :
    (addMarginToSvg svgPct 20).width = some "50%" ∧
    (addMarginToSvg svgPct 20).height = some "5ex" ∧
    (addMarginToSvg svgPct 20).viewBox = some "-20 -20 140 90" := by
  have h := (margin_guards_leave_size svgPct "0 0 100 50" "0" "0" "100" "50" 20
    (by norm_num) rfl (by decide)).1
    (Or.inr (Or.inl ⟨"50%", rfl, Or.inl (by decide)⟩))
  refine ⟨h.1.trans rfl, h.2.1.trans rfl, h.2.2.1.trans ?_⟩
  with_unfolding_all rfl

/-- Claim C10: whenever the margin post-processor rewrites a declared size
attribute, the new value is a stringified number carrying the literal unit
suffix `"ex"`, whatever unit the original attribute carried. -/
theorem margin_size_unit_is_ex (doc : SvgDoc) (m : ℚ) :
    ((addMarginToSvg doc m).width ≠ doc.width →
      ∃ v : JSNum, (addMarginToSvg doc m).width = some (jsToString v ++ "ex")) ∧
    ((addMarginToSvg doc m).height ≠ doc.height →
      ∃ v : JSNum, (addMarginToSvg doc m).height = some (jsToString v ++ "ex")) := by
  by_cases hm : m ≤ 0
  · rw [addMargin_nonpos doc m hm]
    exact ⟨fun hne => absurd rfl hne, fun hne => absurd rfl hne⟩
  · have hm' : 0 < m := lt_of_not_le hm
    rcases hvb : doc.viewBox with _ | vb
    · rw [addMargin_noViewBox doc m hvb]
      exact ⟨fun hne => absurd rfl hne, fun hne => absurd rfl hne⟩
    · by_cases hlen : (splitWs vb).length = 4
      · rcases hsp : splitWs vb with _ | ⟨a, _ | ⟨b, _ | ⟨c, _ | ⟨d, _ | ⟨e, rest⟩⟩⟩⟩⟩ <;>
          rw [hsp] at hlen <;> simp at hlen
        rw [addMargin_unfold doc m vb a b c d hm' hvb hsp]
        have hsh := marginCore_size_shape doc m (jsNumber a) (jsNumber b)
          (jsNumber c) (jsNumber d)
        constructor
        · intro hne
          rcases hsh.1 with hw | hw
          · exact absurd hw hne
          · exact hw
        · intro hne
          rcases hsh.2 with hh | hh
          · exact absurd hh hne
          · exact hh
      · rw [addMargin_badSplit doc m vb hvb hlen]
        exact ⟨fun hne => absurd rfl hne, fun hne => absurd rfl hne⟩

/-- Witness for C10: `width "10pt"` with `viewBox` width `100` and margin
`20` is rewritten, and the rewritten value is `"14ex"` — the unit became
`"ex"` although the original was `"pt"`. -/
theorem margin_size_unit_is_ex_witness :
    (addMarginToSvg svgPt 20).width ≠ svgPt.width ∧
    (addMarginToSvg svgPt 20).width = some "14ex" ∧
    (∃ v : JSNum, (addMarginToSvg svgPt 20).width = some (jsToString v ++ "ex")) := by
  have hv : (addMarginToSvg svgPt 20).width = some "14ex" := by
    with_unfolding_all rfl
  have hne : (addMarginToSvg svgPt 20).width ≠ svgPt.width := by
    rw [hv]
    decide
  exact ⟨hne, hv, (margin_size_unit_is_ex svgPt 20).1 hne⟩
